import Mathlib

/-!
Verification of the `autotask_i18n` nodes (`src/index.py`): the TypeScript
interface generator (`GenerateTypesTS`) and the i18n key comparator
(`CompareI18nKeys`), as a shallow embedding in Lean.

Conventions of the embedding:
* Python strings are Lean `String`s; most scanning functions work on `List Char`.
* Character classes of Python (`str.strip` whitespace, the regex classes
  `\s` and `\w`) are modelled over their ASCII parts; all inputs exercised by
  the claims are ASCII.
* The file system is a function `String → Option String` (path to contents);
  `none` models a missing file, whose `open` raises `FileNotFoundError` with
  detail `[Errno 2] No such file or directory: '<path>'`.
* A Python function that can raise is embedded as `Except String α`, the
  `String` being `str(e)` of the exception escaping the function.
* In `CompareI18nKeys._extract_keys` the two `except` handlers call
  `workflow_logger.error(...)`, but `workflow_logger` is not defined in that
  method (it is a parameter of `execute` only).  Hence on every failure path
  a `NameError` with detail `name 'workflow_logger' is not defined` escapes
  from `_extract_keys`, superseding the `ValueError`s built at lines 174 and
  195 of the source.  The embedding reflects this faithfully.
-/

/-! ### Python string primitives -/

/-- The ASCII whitespace characters of Python `str.strip()` and of the regex
class `\s` (space, tab, newline, carriage return, vertical tab, form feed). -/
def pyWSChars : List Char := [' ', '\t', '\n', '\r', '\x0b', '\x0c']

/-- ASCII whitespace test (Python `\s` / `str.strip` default set). -/
def isPyWS (c : Char) : Bool := pyWSChars.contains c

/-- JSON whitespace as skipped by Python `json.loads` (space, tab, newline,
carriage return only). -/
def isJsonWS (c : Char) : Bool := c == ' ' || c == '\t' || c == '\n' || c == '\r'

/-- ASCII part of the regex class `\w`: letters, digits, underscore. -/
def isWordChar (c : Char) : Bool := c.isAlphanum || c == '_'

/-- Remove the characters of `cs` from both ends of `l`
(Python `str.strip(chars)`). -/
def pyStripCharsL (cs : List Char) (l : List Char) : List Char :=
  ((l.dropWhile (fun c => cs.contains c)).reverse.dropWhile (fun c => cs.contains c)).reverse

/-- Python `s.strip()` on ASCII whitespace. -/
def pyStrip (s : String) : String := String.mk (pyStripCharsL pyWSChars s.data)

/-- Python `s.strip(c)` for a one-character set. -/
def pyStripChar (c : Char) (s : String) : String := String.mk (pyStripCharsL [c] s.data)

/-- Python `s.rstrip(c)` for a one-character set. -/
def pyRstripChar (c : Char) (s : String) : String :=
  String.mk ((s.data.reverse.dropWhile (fun d => d == c)).reverse)

/-- The part of `s` before its first `:` (first component of
Python `s.split(':', 1)`). -/
def beforeColon (s : String) : String := String.mk (s.data.takeWhile (fun c => !(c == ':')))

/-- The part of `s` after its first `:` (second component of
Python `s.split(':', 1)`, assuming a `:` is present). -/
def afterColon (s : String) : String :=
  String.mk ((s.data.dropWhile (fun c => !(c == ':'))).drop 1)

/-- Does `s` start with a single or double quote
(Python `s.startswith("'") or s.startswith('"')`)? -/
def startsQuote (s : String) : Bool :=
  match s.data with
  | c :: _ => c == '\x27' || c == '"'
  | [] => false

/-- Python `"  " * n` (two spaces per level; empty for non-positive `n`). -/
def indentStr (n : Int) : String := String.mk (List.replicate (2 * n.toNat) ' ')

/-- Python `os.path.basename` (POSIX): the part after the last `/`. -/
def pyBasename (p : String) : String :=
  String.mk ((p.data.reverse.takeWhile (fun c => !(c == '/'))).reverse)

/-- Python `os.path.join(dir, f)` for a relative, `/`-free `f`. -/
def pyPathJoin (dir f : String) : String :=
  if dir == "" then f
  else if dir.data.getLast? == some '/' then dir ++ f
  else dir ++ "/" ++ f

/-- Reading a file: `some` contents, or the `FileNotFoundError` detail of
Python `open` on a missing path. -/
def pyOpenRead (fs : String → Option String) (p : String) : Except String String :=
  match fs p with
  | some c => Except.ok c
  | none => Except.error ("[Errno 2] No such file or directory: \x27" ++ p ++ "\x27")

/-! ### Locating the `export default { ... }` object literal

`GenerateTypesTS._generate_interface` (src/index.py:112) uses
`re.search(r'export\s+default\s+({[\s\S]+})', content)`;
`CompareI18nKeys._extract_keys` (src/index.py:172) uses
`re.search(r'export\s+default\s+({[\s\S]+})\s*$', content)`.

Both regexes first find the leftmost occurrence of `export\s+default\s+{`
(the `\s+` runs are forced maximal because they are followed by
non-whitespace literals).  The greedy `[\s\S]+` then runs group 1 from that
`{` to the last `}` of the content, requiring at least one character in
between; the comparator's variant additionally requires that only whitespace
follow that last `}` (`$` matches at the end, or before a final newline,
which `\s*` covers).  If the brace part fails at the leftmost prefix
occurrence it fails at every later one (any later `{` only sees fewer
closing braces), so search-level backtracking never changes the answer. -/

/-- Consume a literal prefix. -/
def dropLit : List Char → List Char → Option (List Char)
  | [], s => some s
  | _ :: _, [] => none
  | c :: cs, d :: ds => if c == d then dropLit cs ds else none

/-- Consume at least one whitespace character (regex `\s+` followed by a
non-whitespace literal: the maximal run is consumed). -/
def dropWS1 (s : List Char) : Option (List Char) :=
  match s.span isPyWS with
  | ([], _) => none
  | (_, r) => some r

/-- Try to match `export\s+default\s+{` at the head of `s`; on success return
the suffix of `s` beginning at the `{`. -/
def matchEDAt (s : List Char) : Option (List Char) :=
  match dropLit "export".data s with
  | none => none
  | some s1 =>
    match dropWS1 s1 with
    | none => none
    | some s2 =>
      match dropLit "default".data s2 with
      | none => none
      | some s3 =>
        match dropWS1 s3 with
        | none => none
        | some s4 =>
          match s4 with
          | '\x7b' :: _ => some s4
          | _ => none

/-- Leftmost occurrence of `export\s+default\s+{` (the suffix starting at the
`{`), as found by `re.search`. -/
def findExportDefault : List Char → Option (List Char)
  | [] => none
  | c :: rest =>
    match matchEDAt (c :: rest) with
    | some t => some t
    | none => findExportDefault rest

/-- Index of the last occurrence of `c` in `l`. -/
def lastIdxOf (c : Char) (l : List Char) : Option Nat :=
  match l.reverse.findIdx? (fun d => d == c) with
  | some i => some (l.length - 1 - i)
  | none => none

/-- Group 1 of `re.search(r'export\s+default\s+({[\s\S]+})', content)`:
from the `{` after the leftmost `export default` to the last `}` of the
content, requiring at least one character between the braces. -/
def extractObjGenL (content : List Char) : Option (List Char) :=
  match findExportDefault content with
  | none => none
  | some t =>
    match lastIdxOf '\x7d' t with
    | some k => if 2 ≤ k then some (t.take (k + 1)) else none
    | none => none

/-- Group 1 of `re.search(r'export\s+default\s+({[\s\S]+})\s*$', content)`:
as `extractObjGenL`, but additionally everything after the final `}` must be
whitespace. -/
def extractObjCmpL (content : List Char) : Option (List Char) :=
  match findExportDefault content with
  | none => none
  | some t =>
    match lastIdxOf '\x7d' t with
    | some k =>
      if 2 ≤ k ∧ ((t.drop (k + 1)).all isPyWS) = true then some (t.take (k + 1)) else none
    | none => none

/-! ### The line scanner of `GenerateTypesTS._generate_interface`
(`parse_ts_object`, src/index.py:76-109) -/

/-- Helper of `splitNl`: accumulate the current line (reversed). -/
def splitNlAux : List Char → List Char → List String
  | [], cur => [String.mk cur.reverse]
  | c :: r, cur =>
    if c == '\n' then String.mk cur.reverse :: splitNlAux r []
    else splitNlAux r (c :: cur)

/-- Python `s.split('\n')`. -/
def splitNl (s : String) : List String := splitNlAux s.data []

/-- One iteration of the `for line in content.split('\n')` loop: given the
current `indent_level`, return the new level and the optionally emitted line
as a `(level, text)` pair; the string actually appended by the source is
`indentStr level ++ text`.  Branches, in source order:
skip blank lines and the `export default {` marker (line 83); on `}` or `},`
decrement and emit a closing brace when the level stays non-negative
(lines 87-91); on a line containing `:` split at the first `:`, strip and
unquote the key, strip the value and its trailing commas, then emit
`key: {` (and increment) for a nested object, `key: string` for a quoted
value, and nothing otherwise (lines 94-107). -/
def tsLineAct (lvl : Int) (raw : String) : Int × Option (Int × String) :=
  let line := pyStrip raw
  if line == "" || line == "export default \x7b" then (lvl, none)
  else if line == "\x7d" || line == "\x7d," then
    let lvl2 := lvl - 1
    if 0 ≤ lvl2 then (lvl2, some (lvl2, "\x7d")) else (lvl2, none)
  else if line.data.contains ':' then
    let key := pyStripChar '"' (pyStripChar '\x27' (pyStrip (beforeColon line)))
    let value := pyRstripChar ',' (pyStrip (afterColon line))
    let vs := pyStrip value
    if vs == "\x7b" then (lvl + 1, some (lvl, key ++ ": \x7b"))
    else if startsQuote vs then (lvl, some (lvl, key ++ ": string"))
    else (lvl, none)
  else (lvl, none)

/-- Loop state transformer appending the rendered line (the string the Python
code appends to `lines`). -/
def tsStep (st : Int × List String) (raw : String) : Int × List String :=
  match tsLineAct st.1 raw with
  | (l2, none) => (l2, st.2)
  | (l2, some e) => (l2, st.2 ++ [indentStr e.1 ++ e.2])

/-- Ghost variant of `tsStep` recording the `(level, text)` pairs instead of
the rendered strings. -/
def tsStepT (st : Int × List (Int × String)) (raw : String) : Int × List (Int × String) :=
  match tsLineAct st.1 raw with
  | (l2, none) => (l2, st.2)
  | (l2, some e) => (l2, st.2 ++ [e])

/-- `parse_ts_object` (src/index.py:76): the list of interface-definition
lines emitted for the object-literal text. -/
def parse_ts_object (obj : String) : List String :=
  ((splitNl obj).foldl tsStep (0, [])).2

/-- The emission trace of `parse_ts_object`: the same lines as
`(level, text)` pairs. -/
def tsTrace (obj : String) : List (Int × String) :=
  ((splitNl obj).foldl tsStepT (0, [])).2

/-- `GenerateTypesTS._generate_interface` (src/index.py:74-119): locate the
object literal (raising `ValueError("Invalid zh.ts file format")` when the
pattern is absent), scan it, and wrap the non-blank emitted lines in an outer
brace pair. -/
def generate_interface (content : String) : Except String String :=
  match extractObjGenL content.data with
  | none => Except.error "Invalid zh.ts file format"
  | some obj =>
    Except.ok ("\x7b\n" ++
      String.intercalate "\n"
        ((parse_ts_object (String.mk obj)).filter (fun l => pyStrip l != "")) ++
      "\n\x7d")

/-- Result dictionary of `GenerateTypesTS.execute`: `ok` carries the
returned `result` path and the content written to `types.ts`; `err` carries
the `error_message` of the failure dictionary (the handler at
src/index.py:70-72 catches every exception). -/
inductive GenResult where
  | ok (result : String) (written : String)
  | err (error_message : String)
deriving DecidableEq

/-- `GenerateTypesTS.execute` (src/index.py:40-72): read the file, build the
interface, write `export interface I18nMessages <body>\n\n` to
`<output_dir>/types.ts`.  Every internal exception is caught and turned into
a failure result carrying `str(e)`. -/
def GenerateTypesTS.execute (fs : String → Option String)
    (zh_ts_file output_dir : String) : GenResult :=
  match pyOpenRead fs zh_ts_file with
  | Except.error e => GenResult.err e
  | Except.ok content =>
    match generate_interface content with
    | Except.error e => GenResult.err e
    | Except.ok ic =>
      GenResult.ok (pyPathJoin output_dir "types.ts")
        ("export interface I18nMessages " ++ ic ++ "\n\n")

/-! ### The normalizer of `CompareI18nKeys._extract_keys`
(src/index.py:179-187)

Three `re.sub` passes over the extracted object-literal text:
1. `(?m)^(\s*)(\w+):` → `\1"\2":`  (wrap bare keys at line starts in quotes);
2. `'([^']*)'` → `"\1"`            (single- to double-quoted strings);
3. `,(\s*[}\]])` → `\1`            (drop a comma before a closing bracket).
Each pass scans left to right and never rescans replaced text.  All three
patterns are deterministic (no effective backtracking): in 1 the `\s*` and
`\w+` runs are maximal, in 3 the `\s*` run is maximal since shorter runs put
a whitespace character where `[}\]]` is required. -/

/-- Pass 1: at each line start (`atLS`), a maximal whitespace run followed
by a non-empty word-character run followed by `:` has the word run wrapped in
double quotes.  Returns `(whitespace, word, rest-after-colon)`. -/
def tryKeyMatch (s : List Char) : Option (List Char × List Char × List Char) :=
  let (ws, r1) := s.span isPyWS
  let (w, r2) := r1.span isWordChar
  if w.isEmpty then none
  else
    match r2 with
    | ':' :: r3 => some (ws, w, r3)
    | _ => none

/-- Pass 1 scanner (fuel-indexed; one unit per consumed character suffices). -/
def subKeys : Nat → List Char → Bool → List Char
  | 0, s, _ => s
  | _, [], _ => []
  | f + 1, c :: r, atLS =>
    if atLS then
      match tryKeyMatch (c :: r) with
      | some (ws, w, rest) => ws ++ '"' :: (w ++ '"' :: ':' :: subKeys f rest false)
      | none => c :: subKeys f r (c == '\n')
    else c :: subKeys f r (c == '\n')

/-- Pass 2 scanner: each `'...'` pair (shortest match, contents free of `'`)
becomes `"..."`; contents are copied verbatim. -/
def subQuotes : Nat → List Char → List Char
  | 0, s => s
  | _, [] => []
  | f + 1, c :: r =>
    if c == '\x27' then
      match r.span (fun d => !(d == '\x27')) with
      | (mid, _ :: r2) => '"' :: (mid ++ '"' :: subQuotes f r2)
      | (_, []) => c :: subQuotes f r
    else c :: subQuotes f r

/-- Pass 3 scanner: a comma followed by maximal whitespace and `}` or `]` is
dropped (the whitespace and bracket are kept, and not rescanned). -/
def subCommas : Nat → List Char → List Char
  | 0, s => s
  | _, [] => []
  | f + 1, c :: r =>
    if c == ',' then
      match r.span isPyWS with
      | (ws, b :: r2) =>
        if b == '\x7d' || b == ']' then ws ++ b :: subCommas f r2
        else c :: subCommas f r
      | (_, []) => c :: subCommas f r
    else c :: subCommas f r

/-- The full normalization of src/index.py:181-187 applied to the extracted
object-literal text. -/
def normalizeObjContent (s : String) : String :=
  let a := subKeys (s.data.length + 1) s.data true
  let b := subQuotes (a.length + 1) a
  String.mk (subCommas (b.length + 1) b)

/-! ### A strict JSON parser modelling Python `json.loads`

Values are objects, arrays, double-quoted strings (with the standard escape
set, `\uXXXX` including surrogate pairs, and unescaped control characters
rejected as in strict mode), numbers (maximal match of
`-?(0|[1-9]\d*)(\.\d+)?([eE][+-]?\d+)?`), `true`/`false`/`null`, and the
Python extensions `NaN`/`Infinity`/`-Infinity`.  Duplicate object keys keep
the first position and the last value, as for a Python `dict`.  The parsers
are fuel-indexed; every two fuel units consume at least one input character,
so the fuel `2*n+4` used by `json_loads` on an `n`-character input is never
exhausted. -/

inductive JVal where
  | nullV
  | boolV (b : Bool)
  | numV (lexeme : String)
  | strV (s : String)
  | arrV (vs : List JVal)
  | objV (members : List (String × JVal))

/-- Skip JSON whitespace. -/
def skipJWS (s : List Char) : List Char := s.dropWhile isJsonWS

/-- Python `dict` insertion: an existing key keeps its position and gets the
new value; a new key is appended. -/
def dictInsert (l : List (String × JVal)) (k : String) (v : JVal) :
    List (String × JVal) :=
  if l.any (fun p => p.1 == k) then
    l.map (fun p => if p.1 == k then (k, v) else p)
  else l ++ [(k, v)]

/-- Hexadecimal digit value. -/
def hexVal (c : Char) : Option Nat :=
  if c.isDigit then some (c.toNat - 48)
  else if 'a' ≤ c ∧ c ≤ 'f' then some (c.toNat - 87)
  else if 'A' ≤ c ∧ c ≤ 'F' then some (c.toNat - 55)
  else none

/-- Four hexadecimal digits. -/
def parseHex4 : List Char → Option (Nat × List Char)
  | a :: b :: c :: d :: r =>
    match hexVal a, hexVal b, hexVal c, hexVal d with
    | some x, some y, some z, some w => some (((x * 16 + y) * 16 + z) * 16 + w, r)
    | _, _, _, _ => none
  | _ => none

/-- String body parser (after the opening quote), strict mode: unescaped
control characters are rejected; surrogate pairs in `\u` escapes are
combined.  (A lone surrogate, which Python would keep as an unpaired code
unit, is replaced by `Char.ofNat`'s fallback; no claim exercises this.) -/
def parseStrAux : Nat → List Char → List Char → Option (String × List Char)
  | 0, _, _ => none
  | _, _, [] => none
  | f + 1, acc, c :: r =>
    if c == '"' then some (String.mk acc.reverse, r)
    else if c == '\\' then
      match r with
      | [] => none
      | e :: r2 =>
        if e == '"' then parseStrAux f ('"' :: acc) r2
        else if e == '\\' then parseStrAux f ('\\' :: acc) r2
        else if e == '/' then parseStrAux f ('/' :: acc) r2
        else if e == 'b' then parseStrAux f ('\x08' :: acc) r2
        else if e == 'f' then parseStrAux f ('\x0c' :: acc) r2
        else if e == 'n' then parseStrAux f ('\n' :: acc) r2
        else if e == 'r' then parseStrAux f ('\r' :: acc) r2
        else if e == 't' then parseStrAux f ('\t' :: acc) r2
        else if e == 'u' then
          match parseHex4 r2 with
          | none => none
          | some (n, r3) =>
            if 0xD800 ≤ n ∧ n ≤ 0xDBFF then
              match r3 with
              | '\\' :: 'u' :: r4 =>
                match parseHex4 r4 with
                | some (m, r5) =>
                  if 0xDC00 ≤ m ∧ m ≤ 0xDFFF then
                    parseStrAux f
                      (Char.ofNat (0x10000 + (n - 0xD800) * 0x400 + (m - 0xDC00)) :: acc) r5
                  else parseStrAux f (Char.ofNat n :: acc) r3
                | none => parseStrAux f (Char.ofNat n :: acc) r3
              | _ => parseStrAux f (Char.ofNat n :: acc) r3
            else parseStrAux f (Char.ofNat n :: acc) r2
        else none
    else if c.toNat < 0x20 then none
    else parseStrAux f (c :: acc) r

/-- Maximal run of decimal digits. -/
def digitSpan (s : List Char) : List Char × List Char := s.span Char.isDigit

/-- Optional fraction and exponent parts of a number (maximal regex match:
a `.` or `e` not followed by the required digits is left unconsumed). -/
def parseFracExp (lex : List Char) (s : List Char) : JVal × List Char :=
  let (lex2, s2) :=
    match s with
    | '.' :: r =>
      (match digitSpan r with
       | ([], _) => (lex, s)
       | (ds, r2) => (lex ++ '.' :: ds, r2))
    | _ => (lex, s)
  let (lex3, s3) :=
    match s2 with
    | e :: r =>
      if e == 'e' || e == 'E' then
        match r with
        | sgn :: r2 =>
          if sgn == '+' || sgn == '-' then
            match digitSpan r2 with
            | ([], _) => (lex2, s2)
            | (ds, r3) => (lex2 ++ e :: sgn :: ds, r3)
          else
            match digitSpan r with
            | ([], _) => (lex2, s2)
            | (ds, r3) => (lex2 ++ e :: ds, r3)
        | [] => (lex2, s2)
      else (lex2, s2)
    | [] => (lex2, s2)
  (JVal.numV (String.mk lex3), s3)

/-- Number parser: optional `-`, then `0` or a nonzero-led digit run, then
the optional fraction/exponent. -/
def parseNum (s : List Char) : Option (JVal × List Char) :=
  let (negPart, s1) :=
    match s with
    | '-' :: r => (['-'], r)
    | _ => (([] : List Char), s)
  match s1 with
  | c :: r =>
    if c == '0' then some (parseFracExp (negPart ++ ['0']) r)
    else if c.isDigit then
      let (ds, r2) := digitSpan r
      some (parseFracExp (negPart ++ c :: ds) r2)
    else none
  | [] => none

mutual

/-- JSON value parser. -/
def parseValue : Nat → List Char → Option (JVal × List Char)
  | 0, _ => none
  | f + 1, s =>
    match s with
    | '\x7b' :: r =>
      (match skipJWS r with
       | '\x7d' :: r2 => some (JVal.objV [], r2)
       | s2 => parseMember f s2 [])
    | '[' :: r =>
      (match skipJWS r with
       | ']' :: r2 => some (JVal.arrV [], r2)
       | s2 => parseElems f s2 [])
    | '"' :: r =>
      (match parseStrAux (r.length + 1) [] r with
       | some (st, r2) => some (JVal.strV st, r2)
       | none => none)
    | 't' :: 'r' :: 'u' :: 'e' :: r => some (JVal.boolV true, r)
    | 'f' :: 'a' :: 'l' :: 's' :: 'e' :: r => some (JVal.boolV false, r)
    | 'n' :: 'u' :: 'l' :: 'l' :: r => some (JVal.nullV, r)
    | 'N' :: 'a' :: 'N' :: r => some (JVal.numV "NaN", r)
    | 'I' :: 'n' :: 'f' :: 'i' :: 'n' :: 'i' :: 't' :: 'y' :: r =>
      some (JVal.numV "Infinity", r)
    | '-' :: 'I' :: 'n' :: 'f' :: 'i' :: 'n' :: 'i' :: 't' :: 'y' :: r =>
      some (JVal.numV "-Infinity", r)
    | s => parseNum s

/-- Object members after the first `{` (empty object handled by the caller):
`"key" : value`, separated by commas, closed by `}`. -/
def parseMember : Nat → List Char → List (String × JVal) →
    Option (JVal × List Char)
  | 0, _, _ => none
  | f + 1, s, acc =>
    match s with
    | '"' :: r =>
      (match parseStrAux (r.length + 1) [] r with
       | none => none
       | some (k, r1) =>
         match skipJWS r1 with
         | ':' :: r2 =>
           (match parseValue f (skipJWS r2) with
            | none => none
            | some (v, r3) =>
              let acc2 := dictInsert acc k v
              match skipJWS r3 with
              | ',' :: r4 => parseMember f (skipJWS r4) acc2
              | '\x7d' :: r4 => some (JVal.objV acc2, r4)
              | _ => none)
         | _ => none)
    | _ => none

/-- Array elements after the first `[` (empty array handled by the caller). -/
def parseElems : Nat → List Char → List JVal → Option (JVal × List Char)
  | 0, _, _ => none
  | f + 1, s, acc =>
    match parseValue f s with
    | none => none
    | some (v, r) =>
      let acc2 := acc ++ [v]
      match skipJWS r with
      | ',' :: r2 => parseElems f (skipJWS r2) acc2
      | ']' :: r2 => some (JVal.arrV acc2, r2)
      | _ => none

end

/-- `json.loads`: parse one value surrounded by optional whitespace, with no
extra data. -/
def json_loads (s : String) : Option JVal :=
  match parseValue (2 * s.data.length + 4) (skipJWS s.data) with
  | some (v, r) => if (skipJWS r).isEmpty then some v else none
  | none => none

/-! ### Key collection and `_extract_keys` (src/index.py:155-199) -/

/-- `collect_keys` (src/index.py:160-168): depth-first leaf key paths,
`prefix.key` for nested entries; a nested dict recurses, anything else is a
leaf.  The Python result set is represented as the list of leaf paths in
traversal order.  The fuel only bounds the recursion: it shrinks on every
call, and the caller passes more units than the parsed value has nodes (a
value parsed from `n` characters has fewer than `n` member pairs and object
nodes together), so it is never exhausted. -/
def collect_keys : Nat → List (String × JVal) → String → List String
  | 0, _, _ => []
  | _, [], _ => []
  | f + 1, (k, v) :: rest, pre =>
    let full := if pre == "" then k else pre ++ "." ++ k
    (match v with
     | JVal.objV o => collect_keys f o full
     | _ => [full]) ++ collect_keys f rest pre

/-- `str(e)` of the `NameError` escaping `_extract_keys` on every failure
path (its `except` handlers call `workflow_logger.error`, but
`workflow_logger` is undefined in that method, src/index.py:193/198). -/
def nameErrorMsg : String := "name \x27workflow_logger\x27 is not defined"

/-- `CompareI18nKeys._extract_keys` (src/index.py:155-199): locate the object
literal (the `ValueError` of line 174 is built when the pattern is absent),
normalize, `json.loads`, and collect the key paths.  On every failure path —
pattern absent, strict parse failure (line 192), or a non-dict result
(`collect_keys` would hit `AttributeError`) — the handler's undefined
`workflow_logger` reference makes a `NameError` escape instead of the
intended `ValueError`. -/
def extract_keys (content : String) : Except String (List String) :=
  match extractObjCmpL content.data with
  | none => Except.error nameErrorMsg
  | some obj =>
    let norm := normalizeObjContent (String.mk obj)
    match json_loads norm with
    | some (JVal.objV ms) => Except.ok (collect_keys (norm.data.length + 1) ms "")
    | some _ => Except.error nameErrorMsg
    | none => Except.error nameErrorMsg

/-! ### The differ and `CompareI18nKeys.execute` (src/index.py:201-249) -/

/-- Python `sorted` on strings (by code points). -/
def pySorted (l : List String) : List String :=
  List.insertionSort (fun a b => a ≤ b) l

/-- `sorted(list(keysA - keysB))` with the sets represented as lists:
elements of `a` not in `b`, deduplicated, sorted ascending. -/
def setDiffSorted (a b : List String) : List String :=
  pySorted ((a.filter (fun k => decide (k ∉ b))).dedup)

/-- `missing_in_2 = sorted(list(keys1 - keys2))` (src/index.py:223). -/
def missing_in_2 (keys1 keys2 : List String) : List String := setDiffSorted keys1 keys2

/-- `missing_in_1 = sorted(list(keys2 - keys1))` (src/index.py:224). -/
def missing_in_1 (keys1 keys2 : List String) : List String := setDiffSorted keys2 keys1

/-- `is_identical = len(missing_in_1) == 0 and len(missing_in_2) == 0`
(src/index.py:226). -/
def isIdentical (keys1 keys2 : List String) : Bool :=
  (missing_in_1 keys1 keys2).length == 0 && (missing_in_2 keys1 keys2).length == 0

/-- The `missing_keys` dict literal of src/index.py:230-233: when the two
labels coincide (equal basenames) the second entry overwrites the value of
the first, which keeps its position — Python dict-literal semantics. -/
def mkMissingKeys (label2 label1 : String) (m2 m1 : List String) :
    List (String × List String) :=
  if label2 = label1 then [(label2, m1)] else [(label2, m2), (label1, m1)]

/-- The result dictionary of `CompareI18nKeys.execute`. -/
structure CompareResult where
  is_identical : Bool
  missing_keys : List (String × List String)
deriving DecidableEq

/-- The reads and extractions of `CompareI18nKeys.execute` in source order
(read first file, read second file, extract first key set, extract second
key set), stopping at the first escaping exception. -/
def compareCore (fs : String → Option String) (f1 f2 : String) :
    Except String (List String × List String) :=
  match pyOpenRead fs f1 with
  | Except.error e => Except.error e
  | Except.ok c1 =>
    match pyOpenRead fs f2 with
    | Except.error e => Except.error e
    | Except.ok c2 =>
      match extract_keys c1 with
      | Except.error e => Except.error e
      | Except.ok k1 =>
        match extract_keys c2 with
        | Except.error e => Except.error e
        | Except.ok k2 => Except.ok (k1, k2)

/-- `CompareI18nKeys.execute` (src/index.py:201-249): on success the result
dictionary; any internal exception is caught and re-raised as
`ValueError("Failed to compare i18n files: " + str(e))` (line 249), which
escapes to the caller — modelled as `Except.error`. -/
def CompareI18nKeys.execute (fs : String → Option String) (f1 f2 : String) :
    Except String CompareResult :=
  match compareCore fs f1 f2 with
  | Except.error e => Except.error ("Failed to compare i18n files: " ++ e)
  | Except.ok (k1, k2) =>
    Except.ok
      { is_identical := isIdentical k1 k2
        missing_keys :=
          mkMissingKeys ("missing_in_" ++ pyBasename f2) ("missing_in_" ++ pyBasename f1)
            (missing_in_2 k1 k2) (missing_in_1 k1 k2) }

/-- The `DiffResult` view of §3 of the specification: the quantities computed
at src/index.py:223-226, packaged with named fields. -/
structure DiffResult where
  identical : Bool
  missingInFirst : List String
  missingInSecond : List String
deriving DecidableEq

/-- `compareKeys` seen as producing a `DiffResult`: exactly the values
`CompareI18nKeys.execute` computes before labelling them. -/
def compareDiff (fs : String → Option String) (f1 f2 : String) :
    Except String DiffResult :=
  match compareCore fs f1 f2 with
  | Except.error e => Except.error e
  | Except.ok (k1, k2) =>
    Except.ok
      { identical := isIdentical k1 k2
        missingInFirst := missing_in_1 k1 k2
        missingInSecond := missing_in_2 k1 k2 }

/-- Is `needle` a contiguous substring of `hay`? -/
def containsSub (needle hay : List Char) : Bool :=
  (List.range (hay.length + 1)).any (fun i => needle.isPrefixOf (hay.drop i))

/-! ### Concrete inputs used by witnesses and counterexamples -/

/-- The example catalog of §8 of the specification:
`export default {\n  'a': {\n    'b': 'hello',\n  },\n  'c': 'world',\n}`. -/
def exInput : String :=
  "export default \x7b\n  \x27a\x27: \x7b\n    \x27b\x27: \x27hello\x27,\n  \x7d,\n  \x27c\x27: \x27world\x27,\n\x7d"

/-- The object-literal text both locators extract from `exInput`. -/
def exObjStr : String :=
  "\x7b\n  \x27a\x27: \x7b\n    \x27b\x27: \x27hello\x27,\n  \x7d,\n  \x27c\x27: \x27world\x27,\n\x7d"

/-- A second catalog, as `exInput` with leaf `c` renamed to `d`
(key paths `a.b` and `d`). -/
def exInput2 : String :=
  "export default \x7b\n  \x27a\x27: \x7b\n    \x27b\x27: \x27hello\x27,\n  \x7d,\n  \x27d\x27: \x27world\x27,\n\x7d"

/-- A catalog whose normalization still fails strict parsing (bare,
unquoted value `b`). -/
def exBad : String := "export default \x7b\n  a: b\n\x7d"

/-- The object-literal text extracted from `exBad`. -/
def exBadObj : String := "\x7b\n  a: b\n\x7d"

/-- File system with the §8 example at `zh.ts`. -/
def exFS : String → Option String := fun p => if p == "zh.ts" then some exInput else none

/-- File system with two catalogs under different basenames. -/
def exFS2 : String → Option String := fun p =>
  if p == "d1/a.ts" then some exInput
  else if p == "d2/b.ts" then some exInput2
  else none

/-- File system with two catalogs under the same basename `zh.ts`. -/
def exFS3 : String → Option String := fun p =>
  if p == "d1/zh.ts" then some exInput
  else if p == "d2/zh.ts" then some exInput2
  else none

/-! ### Helper lemmas -/

/-- Membership in the sorted set difference. -/
theorem mem_setDiffSorted (a b : List String) (k : String) :
    k ∈ setDiffSorted a b ↔ (k ∈ a ∧ k ∉ b) := by
  unfold setDiffSorted pySorted
  rw [List.mem_insertionSort, List.mem_dedup, List.mem_filter]
  simp

/-- The sorted set difference is strictly sorted (ascending, no duplicates). -/
theorem sorted_setDiffSorted (a b : List String) :
    List.Sorted (· < ·) (setDiffSorted a b) := by
  unfold setDiffSorted pySorted
  have hnd : (List.insertionSort (fun x y => x ≤ y)
      ((a.filter (fun k => decide (k ∉ b))).dedup)).Nodup :=
    (List.perm_insertionSort _ _).nodup_iff.mpr (List.nodup_dedup _)
  have hs : List.Sorted (fun x y : String => x ≤ y)
      (List.insertionSort (fun x y => x ≤ y) ((a.filter (fun k => decide (k ∉ b))).dedup)) :=
    List.sorted_insertionSort _ _
  exact (hs.and hnd).imp (fun h => lt_of_le_of_ne h.1 h.2)

/-- `is_identical` is the emptiness of both difference lists. -/
theorem isIdentical_iff (k1 k2 : List String) :
    isIdentical k1 k2 = true ↔ (missing_in_2 k1 k2 = [] ∧ missing_in_1 k1 k2 = []) := by
  unfold isIdentical
  rw [Bool.and_eq_true, beq_iff_eq, beq_iff_eq, List.length_eq_zero, List.length_eq_zero]
  exact and_comm

/-- Swapping the two files swaps the two extracted key lists. -/
theorem compareCore_swap (fs : String → Option String) (f1 f2 : String)
    (k1 k2 : List String) (h : compareCore fs f1 f2 = Except.ok (k1, k2)) :
    compareCore fs f2 f1 = Except.ok (k2, k1) := by
  unfold compareCore at h ⊢
  cases h1 : pyOpenRead fs f1 with
  | error e => simp only [h1] at h; exact Except.noConfusion h
  | ok c1 =>
    simp only [h1] at h
    cases h2 : pyOpenRead fs f2 with
    | error e => simp only [h2] at h; exact Except.noConfusion h
    | ok c2 =>
      simp only [h2] at h
      cases h3 : extract_keys c1 with
      | error e => simp only [h3] at h; exact Except.noConfusion h
      | ok ka =>
        simp only [h3] at h
        cases h4 : extract_keys c2 with
        | error e => simp only [h4] at h; exact Except.noConfusion h
        | ok kb =>
          simp only [h4, Except.ok.injEq, Prod.mk.injEq] at h
          simp only [h2, h1, h4, h3]
          simp [h.1, h.2]

/-- Rendering of a recorded emission: the string the source appends. -/
def renderEmit (p : Int × String) : String := indentStr p.1 ++ p.2

/-- One scanner step and its trace-recording variant agree. -/
theorem tsStep_rel (lvl : Int) (tacc : List (Int × String)) (raw : String) :
    tsStep (lvl, tacc.map renderEmit) raw =
      ((tsStepT (lvl, tacc) raw).1, (tsStepT (lvl, tacc) raw).2.map renderEmit) := by
  unfold tsStep tsStepT
  cases h : tsLineAct lvl raw with
  | mk l2 eOpt =>
    cases eOpt with
    | none => simp
    | some e => simp [renderEmit]

/-- The scanner fold and its trace-recording variant agree. -/
theorem tsFold_rel (lines : List String) (lvl : Int) (tacc : List (Int × String)) :
    lines.foldl tsStep (lvl, tacc.map renderEmit) =
      ((lines.foldl tsStepT (lvl, tacc)).1,
       (lines.foldl tsStepT (lvl, tacc)).2.map renderEmit) := by
  induction lines generalizing lvl tacc with
  | nil => simp
  | cons a rest ih =>
    rw [List.foldl_cons, List.foldl_cons, tsStep_rel]
    have := ih (tsStepT (lvl, tacc) a).1 (tsStepT (lvl, tacc) a).2
    simpa using this

/-- The emitted lines are exactly the rendered trace. -/
theorem parse_ts_object_eq_trace (obj : String) :
    parse_ts_object obj = (tsTrace obj).map renderEmit := by
  unfold parse_ts_object tsTrace
  have := tsFold_rel (splitNl obj) 0 []
  simp only [List.map_nil] at this
  rw [this]

/-- The three shapes of emitted line bodies: a closing brace, a nested-object
opener `key: {`, or a string leaf `key: string`. -/
def emitShape (t : String) : Prop :=
  t = "\x7d" ∨ (∃ k, t = k ++ ": \x7b") ∨ (∃ k, t = k ++ ": string")

/-- Every emission of the line scanner has one of the three shapes. -/
theorem tsLineAct_shape (lvl : Int) (raw : String) (l2 : Int) (e : Int × String)
    (h : tsLineAct lvl raw = (l2, some e)) : emitShape e.2 := by
  simp only [tsLineAct] at h
  split at h
  · exact absurd h (by simp)
  · split at h
    · split at h
      · simp only [Prod.mk.injEq, Option.some.injEq] at h
        exact Or.inl (by rw [← h.2])
      · exact absurd h (by simp)
    · split at h
      · split at h
        · simp only [Prod.mk.injEq, Option.some.injEq] at h
          exact Or.inr (Or.inl ⟨_, by rw [← h.2]⟩)
        · split at h
          · simp only [Prod.mk.injEq, Option.some.injEq] at h
            exact Or.inr (Or.inr ⟨_, by rw [← h.2]⟩)
          · exact absurd h (by simp)
      · exact absurd h (by simp)

/-- Fold invariant: all recorded emissions keep the three shapes. -/
theorem tsFoldT_shape (lines : List String) (lvl : Int) (tacc : List (Int × String))
    (hacc : ∀ p ∈ tacc, emitShape p.2) :
    ∀ p ∈ (lines.foldl tsStepT (lvl, tacc)).2, emitShape p.2 := by
  induction lines generalizing lvl tacc with
  | nil => simpa using hacc
  | cons a rest ih =>
    rw [List.foldl_cons]
    cases h : tsStepT (lvl, tacc) a with
    | mk l2 tacc2 =>
      refine ih l2 tacc2 ?_
      unfold tsStepT at h
      cases hact : tsLineAct lvl a with
      | mk l3 eOpt =>
        rw [hact] at h
        cases eOpt with
        | none =>
          simp only [Prod.mk.injEq] at h
          rw [← h.2]
          exact hacc
        | some e =>
          simp only [Prod.mk.injEq] at h
          rw [← h.2]
          intro p hp
          rcases List.mem_append.mp hp with hmem | hmem
          · exact hacc p hmem
          · rw [List.mem_singleton.mp hmem]
            exact tsLineAct_shape lvl a l3 e hact

/-- Every entry of the scanner trace has one of the three shapes. -/
theorem tsTrace_shape (obj : String) : ∀ p ∈ tsTrace obj, emitShape p.2 := by
  unfold tsTrace
  exact tsFoldT_shape _ 0 [] (by simp)

/-- A string containing a non-whitespace character does not strip to empty. -/
theorem pyStrip_ne_empty (s : String) (c : Char) (hc : c ∈ s.data)
    (hnw : isPyWS c = false) : pyStrip s ≠ "" := by
  intro he
  have hdata : pyStripCharsL pyWSChars s.data = [] := by
    have : (pyStrip s).data = ("" : String).data := by rw [he]
    simpa [pyStrip] using this
  unfold pyStripCharsL at hdata
  have h1 : (s.data.dropWhile (fun c => pyWSChars.contains c)).reverse.dropWhile
      (fun c => pyWSChars.contains c) = [] := by
    have := congrArg List.reverse hdata
    simpa using this
  have hmem : c ∈ s.data.dropWhile (fun c => pyWSChars.contains c) := by
    rcases List.mem_append.mp
        ((List.takeWhile_append_dropWhile (p := fun c => pyWSChars.contains c)
          (l := s.data)) ▸ hc) with hm | hm
    · exact absurd (List.mem_takeWhile_imp hm) (by simp [isPyWS] at hnw; simp [hnw])
    · exact hm
  have := List.dropWhile_eq_nil_iff.mp h1 c (List.mem_reverse.mpr hmem)
  simp [isPyWS] at hnw
  simp [hnw] at this

/-- A rendered emission is never a blank line. -/
theorem renderEmit_not_blank (p : Int × String) (hs : emitShape p.2) :
    pyStrip (renderEmit p) ≠ "" := by
  rcases hs with h | ⟨k, h⟩ | ⟨k, h⟩
  · refine pyStrip_ne_empty _ '\x7d' ?_ (by decide)
    simp [renderEmit, h, String.data_append]
  · refine pyStrip_ne_empty _ '\x7b' ?_ (by decide)
    simp [renderEmit, h, String.data_append]
  · refine pyStrip_ne_empty _ 'g' ?_ (by decide)
    simp [renderEmit, h, String.data_append]

/-- The blank-line filter of src/index.py:119 drops nothing. -/
theorem parse_ts_object_filter_id (obj : String) :
    (parse_ts_object obj).filter (fun l => pyStrip l != "") = parse_ts_object obj := by
  rw [List.filter_eq_self]
  intro a ha
  rw [parse_ts_object_eq_trace] at ha
  obtain ⟨p, hp, rfl⟩ := List.mem_map.mp ha
  simpa [bne_iff_ne] using renderEmit_not_blank p (tsTrace_shape obj p hp)

/-- Concatenation of the output template pieces. -/
theorem wrapTypesContent (X : String) :
    "export interface I18nMessages " ++ ("\x7b\n" ++ X ++ "\n\x7d") ++ "\n\n" =
      "export interface I18nMessages \x7b\n" ++ X ++ "\n\x7d\n\n" := by
  apply String.ext
  have h1 : ("export interface I18nMessages \x7b\n").data =
      ("export interface I18nMessages ").data ++ ("\x7b\n").data := by rfl
  have h2 : ("\n\x7d\n\n").data = ("\n\x7d").data ++ ("\n\n").data := by rfl
  simp only [String.data_append, h1, h2, List.append_assoc]
  simp

/-! ### Claim theorems -/

/-- C1 (counterexample): `compareKeys` does not return a uniform failure
result on an internal failure — the wrapped `ValueError` raised at
src/index.py:249 escapes to the caller (modelled as `Except.error`), here for
a missing first file. -/
theorem compare_exception_escapes_cex :
    CompareI18nKeys.execute (fun _ => none) "a" "b" =
      Except.error "Failed to compare i18n files: [Errno 2] No such file or directory: \x27a\x27" :=
  rfl

/-- C1 (amended): `generateTypes` catches every internal failure and returns
a failure result carrying `str(e)` (shown here for a missing input file),
while `compareKeys` catches every internal failure but re-raises it as a
uniform `ValueError` whose message is
`Failed to compare i18n files: <detail>` — an exception, not a returned
result. -/
theorem error_boundary_behavior (fs : String → Option String) (z o f1 f2 : String) :
    (fs z = none →
      GenerateTypesTS.execute fs z o =
        GenResult.err ("[Errno 2] No such file or directory: \x27" ++ z ++ "\x27")) ∧
    (∀ e, CompareI18nKeys.execute fs f1 f2 = Except.error e →
      ∃ m, e = "Failed to compare i18n files: " ++ m) := by
  constructor
  · intro h
    simp only [GenerateTypesTS.execute, pyOpenRead, h]
  · intro e he
    unfold CompareI18nKeys.execute at he
    cases hc : compareCore fs f1 f2 with
    | error m =>
      simp only [hc, Except.error.injEq] at he
      exact ⟨m, he.symm⟩
    | ok p =>
      obtain ⟨k1, k2⟩ := p
      simp only [hc] at he
      exact Except.noConfusion he

/-- C1 (witness): `error_boundary_behavior` applied to the empty file
system. -/
theorem error_boundary_behavior_witness :
    GenerateTypesTS.execute (fun _ => none) "zh.ts" "out" =
      GenResult.err "[Errno 2] No such file or directory: \x27zh.ts\x27" :=
  (error_boundary_behavior (fun _ => none) "zh.ts" "out" "a" "b").1 rfl

/-- C2: on input without the `export default { ... }` pattern, the generator
pipeline raises its format `ValueError`, but the extractor pipeline raises
the `NameError` caused by the undefined `workflow_logger` in its handler
(src/index.py:198) instead of the format `ValueError` built at line 174;
neither returns an empty result. -/
theorem format_error_paths_eval :
    generate_interface "hello world" = Except.error "Invalid zh.ts file format" ∧
    extract_keys "hello world" = Except.error nameErrorMsg :=
  ⟨rfl, rfl⟩

/-- C3 (counterexample): on `exBad` the normalized text still fails strict
parsing, yet the error escaping the extractor is the `NameError` detail,
which does not contain the normalized text. -/
theorem parse_error_detail_cex :
    extract_keys exBad = Except.error nameErrorMsg ∧
    json_loads (normalizeObjContent exBadObj) = none ∧
    containsSub (normalizeObjContent exBadObj).data nameErrorMsg.data = false :=
  ⟨rfl, rfl, rfl⟩

/-- C3 (amended): whenever the extractor's normalized text fails strict
parsing, what escapes `_extract_keys` is the `NameError` of the undefined
`workflow_logger` (src/index.py:193), not a ParseError carrying the
normalized text — the intended `ValueError` of line 195 is never
constructed, and the normalized text was destined only for the logger. -/
theorem parse_failure_nameerror (content : String) (obj : List Char)
    (h1 : extractObjCmpL content.data = some obj)
    (h2 : json_loads (normalizeObjContent (String.mk obj)) = none) :
    extract_keys content = Except.error nameErrorMsg := by
  simp only [extract_keys, h1, h2]

/-- C3 (witness): `parse_failure_nameerror` applied to `exBad`. -/
theorem parse_failure_nameerror_witness :
    extract_keys exBad = Except.error nameErrorMsg :=
  parse_failure_nameerror exBad exBadObj.data rfl rfl

/-- C4: for every pair of extracted key lists, `missing_in_2` is exactly the
keys of the first absent from the second, strictly sorted ascending;
`missing_in_1` is exactly the keys of the second absent from the first,
strictly sorted ascending; and `is_identical` holds iff both lists are
empty (src/index.py:223-226). -/
theorem differ_correct (ks1 ks2 : List String) :
    (List.Sorted (· < ·) (missing_in_2 ks1 ks2) ∧
      ∀ k, k ∈ missing_in_2 ks1 ks2 ↔ (k ∈ ks1 ∧ k ∉ ks2)) ∧
    (List.Sorted (· < ·) (missing_in_1 ks1 ks2) ∧
      ∀ k, k ∈ missing_in_1 ks1 ks2 ↔ (k ∈ ks2 ∧ k ∉ ks1)) ∧
    (isIdentical ks1 ks2 = true ↔
      (missing_in_2 ks1 ks2 = [] ∧ missing_in_1 ks1 ks2 = [])) :=
  ⟨⟨sorted_setDiffSorted _ _, fun k => mem_setDiffSorted _ _ k⟩,
   ⟨sorted_setDiffSorted _ _, fun k => mem_setDiffSorted _ _ k⟩,
   isIdentical_iff _ _⟩

/-- C4 (witness): `differ_correct` at the §8 example key sets. -/
theorem differ_correct_witness :
    "c" ∈ missing_in_2 ["a.b", "c"] ["a.b", "d"] :=
  ((differ_correct ["a.b", "c"] ["a.b", "d"]).1.2 "c").mpr (by decide)

/-- C5: for every input whose object literal is located, the written
`types.ts` content is exactly
`export interface I18nMessages {\n<body>\n}\n\n`, where the body lines are
the scanner trace rendered with two spaces of indentation per recorded
nesting level (`renderEmit`), and every such line is a closing brace, a
nested-object opener, or a string leaf. -/
theorem generateTypes_output_format (fs : String → Option String)
    (z outDir content : String) (obj : List Char)
    (h1 : fs z = some content) (h2 : extractObjGenL content.data = some obj) :
    GenerateTypesTS.execute fs z outDir =
      GenResult.ok (pyPathJoin outDir "types.ts")
        ("export interface I18nMessages \x7b\n" ++
          String.intercalate "\n" ((tsTrace (String.mk obj)).map renderEmit) ++
          "\n\x7d\n\n")
    ∧ ∀ p ∈ tsTrace (String.mk obj), emitShape p.2 := by
  constructor
  · simp only [GenerateTypesTS.execute, pyOpenRead, h1, generate_interface, h2]
    rw [parse_ts_object_filter_id, parse_ts_object_eq_trace, wrapTypesContent]
  · exact tsTrace_shape _

/-- C5 (witness): `generateTypes_output_format` on the §8 example, with the
rendered output evaluated. -/
theorem generateTypes_output_format_witness :
    GenerateTypesTS.execute exFS "zh.ts" "out" =
      GenResult.ok "out/types.ts"
        "export interface I18nMessages \x7b\na: \x7b\n  b: string\n\x7d\nc: string\n\x7d\n\n" :=
  (generateTypes_output_format exFS "zh.ts" "out" exInput exObjStr.data rfl rfl).1.trans (by rfl)

/-- C6: on the §8 example input the extractor produces exactly the key-path
set `{"a.b", "c"}` (as the traversal-order list of leaf paths). -/
theorem extract_keys_example_eval :
    extract_keys exInput = Except.ok ["a.b", "c"] :=
  rfl

/-- C7 (counterexample): the two location steps are not equivalent — with
non-whitespace text after the final `}` the generator's regex still matches
while the extractor's `\s*$`-anchored regex does not. -/
theorem locate_not_equivalent_cex :
    extractObjGenL ("export default \x7ba\x7d x".data) = some ("\x7ba\x7d".data) ∧
    extractObjCmpL ("export default \x7ba\x7d x".data) = none :=
  ⟨rfl, rfl⟩

/-- C7 (amended): the extractor's location step is strictly stricter than the
generator's: whenever it succeeds, the generator's location step succeeds on
the same input and extracts the same object-literal text (the converse fails
by `locate_not_equivalent_cex`; the two failure messages also differ, and
the extractor's is superseded by a `NameError`). -/
theorem locate_refines (content obj : List Char)
    (h : extractObjCmpL content = some obj) : extractObjGenL content = some obj := by
  unfold extractObjCmpL at h
  unfold extractObjGenL
  cases hf : findExportDefault content with
  | none => simp only [hf] at h; exact Option.noConfusion h
  | some t =>
    simp only [hf] at h ⊢
    cases hl : lastIdxOf '\x7d' t with
    | none => simp only [hl] at h; exact Option.noConfusion h
    | some k =>
      simp only [hl] at h ⊢
      split at h
      · next hcond => rw [if_pos hcond.1]; exact h
      · exact Option.noConfusion h

/-- C7 (witness): `locate_refines` on the §8 example. -/
theorem locate_refines_witness :
    extractObjGenL exInput.data = some exObjStr.data :=
  locate_refines exInput.data exObjStr.data rfl

/-- C8: the differ is symmetric under input swap — whenever `compareKeys`
succeeds on `(A, B)` it succeeds on `(B, A)`, and `missingInSecond` of the
first run equals `missingInFirst` of the second. -/
theorem compare_swap_symm (fs : String → Option String) (A B : String) (r : DiffResult)
    (h : compareDiff fs A B = Except.ok r) :
    ∃ r2, compareDiff fs B A = Except.ok r2 ∧ r.missingInSecond = r2.missingInFirst := by
  unfold compareDiff at h ⊢
  cases hc : compareCore fs A B with
  | error e => simp only [hc] at h; exact Except.noConfusion h
  | ok p =>
    obtain ⟨k1, k2⟩ := p
    simp only [hc, Except.ok.injEq] at h
    rw [compareCore_swap fs A B k1 k2 hc]
    refine ⟨_, rfl, ?_⟩
    rw [← h]
    rfl

/-- C8 (witness): `compare_swap_symm` on two concrete catalogs with key sets
`{a.b, c}` and `{a.b, d}`. -/
theorem compare_swap_symm_witness :
    ∃ r2, compareDiff exFS2 "d2/b.ts" "d1/a.ts" = Except.ok r2 ∧
      (DiffResult.mk false ["d"] ["c"]).missingInSecond = r2.missingInFirst :=
  compare_swap_symm exFS2 "d1/a.ts" "d2/b.ts" (DiffResult.mk false ["d"] ["c"]) rfl

/-- C9: when the two input files have equal basenames the two labels of the
`missing_keys` dict literal collide, so the report carries exactly one
label `missing_in_<basename>`, bound to the second entry's value
`missing_in_1` (the keys of the second file absent from the first);
`missing_in_2` is absent. -/
theorem same_basename_single_label (fs : String → Option String) (f1 f2 : String)
    (k1 k2 : List String) (hb : pyBasename f1 = pyBasename f2)
    (hc : compareCore fs f1 f2 = Except.ok (k1, k2)) :
    CompareI18nKeys.execute fs f1 f2 =
      Except.ok
        { is_identical := isIdentical k1 k2
          missing_keys := [("missing_in_" ++ pyBasename f2, missing_in_1 k1 k2)] } := by
  simp only [CompareI18nKeys.execute, hc]
  unfold mkMissingKeys
  rw [hb]
  simp

/-- C9 (witness): `same_basename_single_label` on two catalogs both named
`zh.ts` in different directories. -/
theorem same_basename_single_label_witness :
    CompareI18nKeys.execute exFS3 "d1/zh.ts" "d2/zh.ts" =
      Except.ok
        { is_identical := isIdentical ["a.b", "c"] ["a.b", "d"]
          missing_keys := [("missing_in_zh.ts", missing_in_1 ["a.b", "c"] ["a.b", "d"])] } :=
  same_basename_single_label exFS3 "d1/zh.ts" "d2/zh.ts" ["a.b", "c"] ["a.b", "d"] rfl rfl

/-- C10: on `export default {}` (no characters between the braces) both
location patterns fail, so neither pipeline yields an empty declaration or
an empty key set: the generator raises its format `ValueError`, while the
extractor's format-error path again escapes as the `NameError` of the
undefined `workflow_logger` rather than the format `ValueError` of
src/index.py:174. -/
theorem empty_object_rejected_eval :
    generate_interface "export default \x7b\x7d" = Except.error "Invalid zh.ts file format" ∧
    extract_keys "export default \x7b\x7d" = Except.error nameErrorMsg :=
  ⟨rfl, rfl⟩
